import Mathlib

/-!
Verification of the openai-proxy request pipeline against its specification.

The definitions below are shallow embeddings of the JavaScript source:

* `src/http-client.js` — the `OpenAIHttpClient` retry engine (`makeRequest`,
  `shouldRetry`, `shouldRetryError`, `calculateRetryDelay`,
  `generateIdempotencyKey`, `makeJsonRequest`, `makeStreamingRequest`);
* `src/allowlist.js` — `isAllowlistEnabled`, `isEndpointAllowed`,
  `isModelAllowed`, `getDefaultModel`, `validateAndNormalizeRequest`;
* `src/index.js` — the buffered-JSON error branch of
  `handleJsonRequestWithClient` and the queue-overflow catch of the main
  proxy handler;
* `src/unnamed/part_006` — `scheduleRequest` and the per-user limiter
  cleanup timer in `getUserLimiter`.

Asynchronous transports are modelled by a trace: a list of per-attempt
outcomes, one entry for each time the code would call the transport.
-/

/-! ## Retry configuration (src/http-client.js, constructor) -/

/-- Retry configuration of `OpenAIHttpClient` (`this.retryConfig`).
Delays are rational numbers of milliseconds (JS numbers). -/
structure RetryConfig where
  maxRetries : Nat
  baseDelay : ℚ
  maxDelay : ℚ
  retryOn : List Nat
deriving Repr, DecidableEq

/-- Default retry configuration: `maxRetries 3, baseDelay 1000, maxDelay
30000, retryOn [429, 500, 502, 503, 504]`. -/
def defaultRetryConfig : RetryConfig :=
  { maxRetries := 3, baseDelay := 1000, maxDelay := 30000
    retryOn := [429, 500, 502, 503, 504] }

/-- The retryable transport-error codes of `shouldRetryError`
(src/http-client.js line 180). `ENOTFOUND` is deliberately absent. -/
def retryableErrorCodes : List String := ["ECONNRESET", "ECONNREFUSED", "TIMEOUT"]

/-- Embedding of `OpenAIHttpClient.shouldRetry(statusCode, attempt)`
(src/http-client.js lines 166-169). -/
def shouldRetry (cfg : RetryConfig) (statusCode attempt : Nat) : Bool :=
  decide (attempt < cfg.maxRetries) && cfg.retryOn.contains statusCode

/-- Embedding of `OpenAIHttpClient.shouldRetryError(error, attempt)`
(src/http-client.js lines 174-182); `code` is the JS error's `code` field. -/
def shouldRetryError (cfg : RetryConfig) (code : String) (attempt : Nat) : Bool :=
  if cfg.maxRetries ≤ attempt then false
  else retryableErrorCodes.contains code

/-! ## Request options and idempotency (src/http-client.js lines 106-124, 207-209) -/

/-- The parts of `requestOptions` that the retry loop and the idempotency
logic inspect: the HTTP method and the `Idempotency-Key` header. -/
structure RequestOptions where
  method : String
  path : String
  idempotencyKey : Option String
deriving Repr, DecidableEq

/-- Embedding of `OpenAIHttpClient.generateIdempotencyKey()` (src/http-client.js lines
207-209): the key is the literal text `req_`, the current milliseconds,
an underscore, and a random base-36 string. -/
def generateIdempotencyKey (nowMs : Nat) (rand : String) : String :=
  "req_" ++ toString nowMs ++ "_" ++ rand

/-- The mutating methods that receive an idempotency key
(src/http-client.js line 120). -/
def mutatingMethods : List String := ["POST", "PUT", "PATCH"]

/-- JS truthiness of `requestOptions.headers[..]`: an absent header and an
empty-string header are both falsy (src/http-client.js line 121). -/
def isFalsyHeader : Option String → Bool
  | none => true
  | some s => s.isEmpty

/-- The header preparation at the top of `makeRequest` (src/http-client.js
lines 119-124): for a mutating method with no caller-supplied key, a
generated key is attached before the retry loop starts. -/
def prepareRequestOptions (enableIdempotency : Bool) (opts : RequestOptions)
    (nowMs : Nat) (rand : String) : RequestOptions :=
  if enableIdempotency && mutatingMethods.contains opts.method
      && isFalsyHeader opts.idempotencyKey then
    { opts with idempotencyKey := some (generateIdempotencyKey nowMs rand) }
  else opts

/-! ## The retry loop (src/http-client.js lines 126-161) -/

/-- One transport attempt's outcome: a response (status plus the
`retry-after` header, the only response header the retry engine reads), or
a rejected promise carrying a JS error code. -/
inductive Outcome where
  | resp (status : Nat) (retryAfterHeader : Option String)
  | err (code : String)
deriving Repr, DecidableEq

/-- Result of `makeRequest`: a returned response status, a thrown transport
error, a thrown status-bearing error, or `noOutcome` when the supplied
trace is shorter than the attempts the loop makes (never reached on a
trace of length `maxRetries + 1`). -/
inductive ReqResult where
  | success (status : Nat)
  | thrown (code : String)
  | httpError (status : Nat)
  | noOutcome
deriving Repr, DecidableEq

/-- The `for (attempt = 0; attempt <= maxRetries; attempt++)` loop of
`makeRequest` (src/http-client.js lines 126-161), one trace entry per call
of `transport.executeRequest(requestOptions, data)`. The second component
records the `requestOptions` value passed to each executed attempt.
A response with `shouldRetry` false is returned; a rejected attempt with
`shouldRetryError` false is thrown; otherwise the loop continues when
`attempt < maxRetries` (the remaining branches mirror the loop's
post-iteration `throw lastError`, which is unreachable). -/
def runAttempts (cfg : RetryConfig) (req : RequestOptions) :
    Nat → List Outcome → ReqResult × List RequestOptions
  | _, [] => (.noOutcome, [])
  | attempt, .resp s _hdr :: rest =>
    if shouldRetry cfg s attempt then
      if attempt < cfg.maxRetries then
        let r := runAttempts cfg req (attempt + 1) rest
        (r.1, req :: r.2)
      else (.httpError s, [req])
    else (.success s, [req])
  | attempt, .err c :: rest =>
    if shouldRetryError cfg c attempt then
      if attempt < cfg.maxRetries then
        let r := runAttempts cfg req (attempt + 1) rest
        (r.1, req :: r.2)
      else (.thrown c, [req])
    else (.thrown c, [req])

/-- Embedding of `OpenAIHttpClient.makeRequest(options, data)` (src/http-client.js lines
106-161): prepare the request options (idempotency key included), then run
the retry loop from attempt 0. -/
def makeRequest (cfg : RetryConfig) (enableIdempotency : Bool)
    (opts : RequestOptions) (nowMs : Nat) (rand : String)
    (outcomes : List Outcome) : ReqResult × List RequestOptions :=
  runAttempts cfg (prepareRequestOptions enableIdempotency opts nowMs rand) 0 outcomes

/-! ## Retry delay (src/http-client.js lines 187-202) -/

/-- The longest leading run of decimal digits of a character list. -/
def takeDigits : List Char → List Char
  | [] => []
  | c :: cs => if c.isDigit then c :: takeDigits cs else []

/-- Value of a list of decimal digits, most significant first. -/
def digitsToNat (cs : List Char) : Nat :=
  cs.foldl (fun acc c => acc * 10 + (c.toNat - 48)) 0

/-- JS `parseInt(s, 10)`: skip leading whitespace, read an optional sign,
then the longest run of decimal digits; `none` models `NaN`. -/
def parseIntJs (s : String) : Option Int :=
  let cs := s.data.dropWhile (fun c => c == ' ' || c == '\t' || c == '\n' || c == '\r')
  match cs with
  | '-' :: rest =>
    let ds := takeDigits rest
    if ds.isEmpty then none else some (-(digitsToNat ds : Int))
  | '+' :: rest =>
    let ds := takeDigits rest
    if ds.isEmpty then none else some (digitsToNat ds : Int)
  | _ =>
    let ds := takeDigits cs
    if ds.isEmpty then none else some (digitsToNat ds : Int)

/-- Embedding of `OpenAIHttpClient.calculateRetryDelay(attempt, lastError)`
(src/http-client.js lines 187-202). `retryAfterHeader` is
`lastError.response.headers['retry-after']` when present; `jitter` is the
value of `Math.random() * 1000`, a rational in `[0, 1000)`. An integer
`Retry-After` yields `min(retryAfter * 1000, maxDelay)`; otherwise the
delay is `min(baseDelay * 2 ^ attempt + jitter, maxDelay)`. -/
def calculateRetryDelay (cfg : RetryConfig) (attempt : Nat)
    (retryAfterHeader : Option String) (jitter : ℚ) : ℚ :=
  match retryAfterHeader.bind parseIntJs with
  | some n => min ((n : ℚ) * 1000) cfg.maxDelay
  | none => min (cfg.baseDelay * 2 ^ attempt + jitter) cfg.maxDelay

/-! ## Buffered JSON path and its error branch (src/http-client.js lines
221-248, src/index.js lines 511-595) -/

/-- The error shapes thrown out of `OpenAIHttpClient`: a status-bearing
error (`error.statusCode` and `error.response` set) or a transport error
(only `error.code` set). -/
inductive ClientError where
  | httpStatus (status : Nat)
  | transport (code : String)
deriving Repr, DecidableEq

/-- Embedding of `OpenAIHttpClient.makeJsonRequest` (src/http-client.js lines 221-248):
run `makeRequest`; a returned response with status at least 400 is turned
into a thrown status-bearing error; a propagated throw keeps its shape. -/
def makeJsonRequest (cfg : RetryConfig) (enableIdempotency : Bool)
    (opts : RequestOptions) (nowMs : Nat) (rand : String)
    (outcomes : List Outcome) : Except ClientError Nat :=
  match (makeRequest cfg enableIdempotency opts nowMs rand outcomes).1 with
  | .success s => if 400 ≤ s then .error (.httpStatus s) else .ok s
  | .thrown c => .error (.transport c)
  | .httpError s => .error (.httpStatus s)
  | .noOutcome => .error (.transport "NO_OUTCOME")

/-- The status code sent to the client by `handleJsonRequestWithClient`
(src/index.js lines 511-595): on success the upstream status is forwarded;
in the catch branch, an error with `statusCode` and `response` forwards
that status, and any other error (transport errors included) yields 502
with a `network_error` body. -/
def handleJsonRequestStatus (cfg : RetryConfig) (enableIdempotency : Bool)
    (opts : RequestOptions) (nowMs : Nat) (rand : String)
    (outcomes : List Outcome) : Nat :=
  match makeJsonRequest cfg enableIdempotency opts nowMs rand outcomes with
  | .ok s => s
  | .error (.httpStatus s) => s
  | .error (.transport _) => 502

/-- Embedding of `OpenAIHttpClient.makeMultipartRequest` (src/http-client.js
lines 308-336): build the multipart request options (method POST by
default, multipart content type, shorter default timeout — none of which
the retry loop's status logic reads) and run `makeRequest`; exactly like
the JSON path, a returned response with status at least 400 becomes a
thrown status-bearing error and a propagated throw keeps its shape. -/
def makeMultipartRequest (cfg : RetryConfig) (enableIdempotency : Bool)
    (opts : RequestOptions) (nowMs : Nat) (rand : String)
    (outcomes : List Outcome) : Except ClientError Nat :=
  match (makeRequest cfg enableIdempotency opts nowMs rand outcomes).1 with
  | .success s => if 400 ≤ s then .error (.httpStatus s) else .ok s
  | .thrown c => .error (.transport c)
  | .httpError s => .error (.httpStatus s)
  | .noOutcome => .error (.transport "NO_OUTCOME")

/-- The status code sent to the client by `handleMultipartRequestWithClient`
(src/index.js lines 702-795): on success the upstream status is forwarded;
its catch branch (lines 757-794) is the same as the buffered JSON one —
an error with `statusCode` and `response` forwards that status, and any
other error (transport errors included) yields 502 with a `network_error`
body. The temp-file cleanup it also performs does not affect the status. -/
def handleMultipartRequestStatus (cfg : RetryConfig) (enableIdempotency : Bool)
    (opts : RequestOptions) (nowMs : Nat) (rand : String)
    (outcomes : List Outcome) : Nat :=
  match makeMultipartRequest cfg enableIdempotency opts nowMs rand outcomes with
  | .ok s => s
  | .error (.httpStatus s) => s
  | .error (.transport _) => 502

/-! ## Scheduler rejection and the queue-overflow response
(src/unnamed/part_006 lines 81-96, src/index.js lines 293-311) -/

/-- The fields of a JS error object that the overflow path reads and
writes: `message`, `status`, `code`. -/
structure JsErrorObj where
  message : String
  status : Option Nat
  code : Option String
deriving Repr, DecidableEq

/-- JS `string.includes(pattern)`. -/
def jsIncludes (s pattern : String) : Bool :=
  decide (pattern.data <:+: s.data)

/-- The catch branch of `scheduleRequest` (src/unnamed/part_006 lines
84-95): an error whose message includes `This job has been dropped` is
replaced by a `QUEUE_OVERFLOW` error with status 503; any other error is
rethrown unchanged. -/
def scheduleRequestError (e : JsErrorObj) : JsErrorObj :=
  if jsIncludes e.message "This job has been dropped" then
    { message := "Rate limit queue overflow", status := some 503
      code := some "QUEUE_OVERFLOW" }
  else e

/-- A response sent to the client: its status, its HTTP headers, and the
`retryAfter` field of its JSON body when present. `res.json(..)` sets only
the `content-type` header. -/
structure DownstreamResponse where
  status : Nat
  headers : List (String × String)
  bodyRetryAfter : Option Nat
deriving Repr, DecidableEq

/-- The catch branch of the main proxy handler (src/index.js lines
293-311): a `QUEUE_OVERFLOW` error yields status 503 with a JSON body
whose `retryAfter` field is 30; any other error yields status 500. Neither
branch sets any header beyond the `content-type` that `res.json` adds. -/
def mainHandlerCatchResponse (e : JsErrorObj) : DownstreamResponse :=
  if e.code == some "QUEUE_OVERFLOW" then
    { status := 503, headers := [("content-type", "application/json")]
      bodyRetryAfter := some 30 }
  else
    { status := 500, headers := [("content-type", "application/json")]
      bodyRetryAfter := none }

/-- Composition of the two layers a dropped job passes through: the
limiter's rejection (message `droppedMsg`) is translated by
`scheduleRequest` and then answered by the main handler's catch. -/
def overflowClientResponse (droppedMsg : String) : DownstreamResponse :=
  mainHandlerCatchResponse
    (scheduleRequestError { message := droppedMsg, status := none, code := none })

/-! ## Streaming path (src/http-client.js lines 254-303) -/

/-- Outcome of the single `https.request` that `makeStreamingRequest`
issues: either response headers arrive (the stream has begun) or the
request fails before headers with a JS error code. -/
inductive StreamOutcome where
  | headersArrived (status : Nat)
  | preHeadersError (code : String)
deriving Repr, DecidableEq

/-- Result of `makeStreamingRequest`: a resolved stream handle exposing the
upstream status, or a rejection carrying the error code. -/
inductive StreamResult where
  | handle (status : Nat)
  | rejected (code : String)
deriving Repr, DecidableEq

/-- Embedding of `OpenAIHttpClient.makeStreamingRequest` (src/http-client.js lines
254-303): it wraps exactly one `https.request` in a promise — there is no
retry loop — resolving as soon as headers arrive and rejecting on a
pre-headers error. The trace interface matches `runAttempts`; the second
component counts the transport attempts made. -/
def makeStreamingRequestTrace (outcomes : List StreamOutcome) :
    StreamResult × Nat :=
  match outcomes with
  | [] => (.rejected "NO_OUTCOME", 0)
  | .headersArrived s :: _ => (.handle s, 1)
  | .preHeadersError c :: _ => (.rejected c, 1)

/-! ## Per-user limiter cleanup (src/unnamed/part_006 lines 49-78) -/

/-- Observable state of a Bottleneck limiter: running job count, queued
job count, and the time of its last activity (milliseconds). -/
structure LimiterState where
  running : Nat
  queued : Nat
  lastActivity : Nat
deriving Repr, DecidableEq

/-- The cleanup delay of `getUserLimiter`: `60 * 60 * 1000` milliseconds. -/
def idleCleanupDelayMs : Nat := 60 * 60 * 1000

/-- The `setTimeout` in `getUserLimiter` is scheduled once, at limiter
creation, so its callback fires exactly `idleCleanupDelayMs` after the
creation time. -/
def cleanupTimerFires (creationTime : Nat) : Nat :=
  creationTime + idleCleanupDelayMs

/-- The body of that `setTimeout` callback (src/unnamed/part_006 lines
67-74): if the registry still has the key, `limiter.stop()` is called and
the entry is deleted. The limiter's state is not consulted. Returns the
registry after the callback. -/
def cleanupCallback (registry : List (String × LimiterState))
    (userKey : String) : List (String × LimiterState) :=
  if (registry.lookup userKey).isSome then
    registry.eraseP (fun p => p.1 == userKey)
  else registry

/-- The destruction condition claimed by the specification: no running
jobs, no queued work, and last activity older than the idle TTL. -/
def idleDestroyAllowed (s : LimiterState) (now ttl : Nat) : Bool :=
  s.running == 0 && s.queued == 0 && decide (s.lastActivity + ttl < now)

/-! ## Allowlist policy (src/allowlist.js) -/

/-- The `ALLOWLIST` section of config.json, and the shape of
`defaultAllowlistConfig` (src/allowlist.js lines 14-28). `enabled` is an
`Option` because a JSON config may omit the field (JS `undefined`). -/
structure AllowlistConfig where
  enabled : Option Bool
  endpoints : List String
  models : List String
  default_model : String
deriving Repr, DecidableEq

/-- Embedding of `defaultAllowlistConfig` (src/allowlist.js lines 14-28), used when
`config.ALLOWLIST` is absent. -/
def defaultAllowlistConfig : AllowlistConfig :=
  { enabled := some true
    endpoints := ["/v1/chat/completions", "/v1/completions", "/v1/embeddings",
      "/v1/audio/speech", "/v1/audio/transcriptions"]
    models := ["gpt-4o-mini", "text-embedding-3-small"]
    default_model := "gpt-4o-mini" }

/-- Embedding of `isAllowlistEnabled()` (src/allowlist.js lines 35-37):
`allowlistConfig.enabled !== false`, so an absent field counts as enabled. -/
def isAllowlistEnabled (cfg : AllowlistConfig) : Bool :=
  !(cfg.enabled == some false)

/-- Embedding of `isEndpointAllowed(endpoint)` (src/allowlist.js lines 42-54): if the
allowlist is disabled, allow; otherwise take `endpoint.split('?')[0]`,
prepend `/v1` unless the result starts with `/v1/`, and test membership in
the configured endpoints. -/
def isEndpointAllowed (cfg : AllowlistConfig) (endpoint : String) : Bool :=
  if !(isAllowlistEnabled cfg) then true
  else
    let normalizedEndpoint : String := ⟨endpoint.data.takeWhile (fun c => c != '?')⟩
    let normalizedEndpoint :=
      if !(normalizedEndpoint.startsWith "/v1/") then "/v1" ++ normalizedEndpoint
      else normalizedEndpoint
    cfg.endpoints.contains normalizedEndpoint

/-- The normalization described by the specification, written from its
words alone: strip everything from the first `?`, then prepend `/v1` when
the remainder does not start with `/v1/`. Kept separate from
`isEndpointAllowed` so the refinement theorem compares the two. -/
def specNormalizedPath (path : String) : String :=
  let stripped : String := ⟨path.data.takeWhile (fun c => c != '?')⟩
  if stripped.startsWith "/v1/" then stripped else "/v1" ++ stripped

/-- JS truthiness of a possibly-absent string field: absent and empty are
falsy. -/
def isTruthyStr : Option String → Bool
  | none => false
  | some s => !s.isEmpty

/-- Embedding of `isModelAllowed(model)` (src/allowlist.js lines 59-69): allow when the
allowlist is disabled or the model is falsy; otherwise membership in the
configured models. -/
def isModelAllowed (cfg : AllowlistConfig) (model : Option String) : Bool :=
  if !(isAllowlistEnabled cfg) then true
  else if !(isTruthyStr model) then true
  else cfg.models.contains (model.getD "")

/-- Embedding of `getDefaultModel()` (src/allowlist.js lines 74-76). -/
def getDefaultModel (cfg : AllowlistConfig) : String :=
  cfg.default_model

/-- A JSON request body as the allowlist sees it: the `model` field and
the remaining fields, which `validateAndNormalizeRequest` copies verbatim. -/
structure RequestBody where
  model : Option String
  rest : List (String × String)
deriving Repr, DecidableEq

/-- A thrown JS runtime error. Reading a property of `undefined` throws a
`TypeError`. -/
inductive JsRuntimeError where
  | typeError (msg : String)
deriving Repr, DecidableEq

/-- The value returned by `validateAndNormalizeRequest`: the `valid` flag,
the normalized body on success, and the error message and
`details.allowed_models` on rejection. -/
structure ValidationResult where
  valid : Bool
  body : Option RequestBody
  error : Option String
  detailsAllowedModels : Option (List String)
deriving Repr, DecidableEq

/-- Embedding of `validateAndNormalizeRequest(requestBody, endpoint)` (src/allowlist.js
lines 81-108), parameterized by `configALLOWLIST`, the raw
`config.ALLOWLIST` value (`none` when config.json could not be loaded, in
which case the module-level `allowlistConfig` falls back to
`defaultAllowlistConfig`, src/allowlist.js line 30). The function clones
the body (`{ ...requestBody }`) and only ever assigns to the clone, so the
result also returns the original body as it stands after the call. The
rejection branch reads `config.ALLOWLIST.models` directly; with
`configALLOWLIST = none` that property access throws a `TypeError`. -/
def validateAndNormalizeRequest (configALLOWLIST : Option AllowlistConfig)
    (requestBody : RequestBody) :
    Except JsRuntimeError (ValidationResult × RequestBody) :=
  let allowlistConfig := configALLOWLIST.getD defaultAllowlistConfig
  if !(isAllowlistEnabled allowlistConfig) then
    .ok ({ valid := true, body := some requestBody, error := none
           detailsAllowedModels := none }, requestBody)
  else
    let normalizedBody := requestBody
    if isTruthyStr normalizedBody.model then
      if !(isModelAllowed allowlistConfig normalizedBody.model) then
        match configALLOWLIST with
        | none => .error (.typeError "Cannot read properties of undefined (reading \x27models\x27)")
        | some raw =>
          .ok ({ valid := false, body := none
                 error := some ("Model \x27" ++ normalizedBody.model.getD "" ++ "\x27 is not allowed")
                 detailsAllowedModels := some raw.models }, requestBody)
      else
        .ok ({ valid := true, body := some normalizedBody, error := none
               detailsAllowedModels := none }, requestBody)
    else
      let normalizedBody := { normalizedBody with model := some (getDefaultModel allowlistConfig) }
      .ok ({ valid := true, body := some normalizedBody, error := none
             detailsAllowedModels := none }, requestBody)

/-! ## Helper lemmas -/

/-- Every request the retry loop sends is the prepared `requestOptions`
value; the loop never rebuilds it. -/
theorem runAttempts_trace_req (cfg : RetryConfig) (req : RequestOptions) :
    ∀ (outcomes : List Outcome) (a : Nat) (r : RequestOptions),
      r ∈ (runAttempts cfg req a outcomes).2 → r = req := by
  intro outcomes
  induction outcomes with
  | nil => intro a r hr; simp [runAttempts] at hr
  | cons o rest ih =>
    intro a r hr
    cases o with
    | resp s hdr =>
      by_cases h1 : shouldRetry cfg s a = true
      · by_cases h2 : a < cfg.maxRetries
        · simp [runAttempts, h1, h2] at hr
          rcases hr with hr | hr
          · exact hr
          · exact ih (a + 1) r hr
        · simp [runAttempts, h1, h2] at hr; exact hr
      · simp [runAttempts, h1] at hr; exact hr
    | err c =>
      by_cases h1 : shouldRetryError cfg c a = true
      · by_cases h2 : a < cfg.maxRetries
        · simp [runAttempts, h1, h2] at hr
          rcases hr with hr | hr
          · exact hr
          · exact ih (a + 1) r hr
        · simp [runAttempts, h1, h2] at hr; exact hr
      · simp [runAttempts, h1] at hr; exact hr

/-- The retry loop starting at attempt `a` makes at most
`maxRetries + 1 - a` transport attempts. -/
theorem runAttempts_trace_length (cfg : RetryConfig) (req : RequestOptions) :
    ∀ (outcomes : List Outcome) (a : Nat), a ≤ cfg.maxRetries →
      (runAttempts cfg req a outcomes).2.length ≤ cfg.maxRetries + 1 - a := by
  intro outcomes
  induction outcomes with
  | nil => intro a _; simp [runAttempts]
  | cons o rest ih =>
    intro a ha
    cases o with
    | resp s hdr =>
      by_cases h1 : shouldRetry cfg s a = true
      · have h2 : a < cfg.maxRetries := by
          have h1m := h1
          simp [shouldRetry, Bool.and_eq_true] at h1m
          exact h1m.1
        have := ih (a + 1) h2
        simp [runAttempts, h1, h2]
        omega
      · simp [runAttempts, h1]
        omega
    | err c =>
      by_cases h1 : shouldRetryError cfg c a = true
      · have h2 : a < cfg.maxRetries := by
          by_contra hcon
          have : cfg.maxRetries ≤ a := by omega
          simp [shouldRetryError, this] at h1
        have := ih (a + 1) h2
        simp [runAttempts, h1, h2]
        omega
      · simp [runAttempts, h1]
        omega

/-- Single-step unfolding of the retry loop at a rejected attempt. -/
theorem runAttempts_cons_err (cfg : RetryConfig) (req : RequestOptions)
    (a : Nat) (c : String) (rest : List Outcome) :
    runAttempts cfg req a (.err c :: rest)
      = if shouldRetryError cfg c a then
          if a < cfg.maxRetries then
            ((runAttempts cfg req (a + 1) rest).1,
             req :: (runAttempts cfg req (a + 1) rest).2)
          else (.thrown c, [req])
        else (.thrown c, [req]) := rfl

/-- A run whose first `maxRetries + 1` attempts all reject with `TIMEOUT`
throws the `TIMEOUT` error. -/
theorem runAttempts_all_timeout (cfg : RetryConfig) (req : RequestOptions)
    (rest : List Outcome) :
    ∀ (k a : Nat), a + k = cfg.maxRetries →
      runAttempts cfg req a (List.replicate (k + 1) (Outcome.err "TIMEOUT") ++ rest)
        = (.thrown "TIMEOUT", List.replicate (k + 1) req) := by
  intro k
  induction k with
  | zero =>
    intro a ha
    have hle : cfg.maxRetries ≤ a := by omega
    simp [runAttempts, shouldRetryError, hle]
  | succ n ih =>
    intro a ha
    have hlt : a < cfg.maxRetries := by omega
    have hnle : ¬ cfg.maxRetries ≤ a := by omega
    have hsre : shouldRetryError cfg "TIMEOUT" a = true := by
      simp [shouldRetryError, hnle, retryableErrorCodes]
    have hih := ih (a + 1) (by omega)
    rw [List.replicate_succ, List.cons_append, runAttempts_cons_err,
      if_pos hsre, if_pos hlt, hih]
    simp [List.replicate_succ]

/-! ## Claim theorems -/

/-- Claim C1: in the transport retry loop, a response whose status is in
the configured retryable set is retried while fewer than `maxRetries`
retries have been made, a transport error with code `ECONNRESET`,
`ECONNREFUSED` or `TIMEOUT` is likewise retried, a response with status
400, 401, 403 or 404 is returned without retry, an `ENOTFOUND` error is
thrown immediately, and the loop makes at most `maxRetries + 1` attempts. -/
theorem retry_loop_policy (cfg : RetryConfig) (req : RequestOptions)
    (hset : cfg.retryOn = [429, 500, 502, 503, 504]) :
    (∀ s, s ∈ [429, 500, 502, 503, 504] →
      ∀ (hdr : Option String) (rest : List Outcome) (attempt : Nat),
        attempt < cfg.maxRetries →
        runAttempts cfg req attempt (.resp s hdr :: rest)
          = ((runAttempts cfg req (attempt + 1) rest).1,
             req :: (runAttempts cfg req (attempt + 1) rest).2))
  ∧ (∀ c, c ∈ retryableErrorCodes →
      ∀ (rest : List Outcome) (attempt : Nat), attempt < cfg.maxRetries →
        runAttempts cfg req attempt (.err c :: rest)
          = ((runAttempts cfg req (attempt + 1) rest).1,
             req :: (runAttempts cfg req (attempt + 1) rest).2))
  ∧ (∀ s, s ∈ [400, 401, 403, 404] →
      ∀ (hdr : Option String) (rest : List Outcome) (attempt : Nat),
        runAttempts cfg req attempt (.resp s hdr :: rest) = (.success s, [req]))
  ∧ (∀ (rest : List Outcome) (attempt : Nat),
        runAttempts cfg req attempt (.err "ENOTFOUND" :: rest)
          = (.thrown "ENOTFOUND", [req]))
  ∧ (∀ outcomes : List Outcome,
        (runAttempts cfg req 0 outcomes).2.length ≤ cfg.maxRetries + 1) := by
  refine ⟨?_, ?_, ?_, ?_, ?_⟩
  · intro s hs hdr rest attempt h
    have hr : shouldRetry cfg s attempt = true := by
      fin_cases hs <;> simp [shouldRetry, hset, h]
    simp [runAttempts, hr, h]
  · intro c hc rest attempt h
    have hnle : ¬ cfg.maxRetries ≤ attempt := by omega
    have hr : shouldRetryError cfg c attempt = true := by
      fin_cases hc <;> simp [shouldRetryError, hnle, retryableErrorCodes]
    simp [runAttempts, hr, h]
  · intro s hs hdr rest attempt
    have hr : shouldRetry cfg s attempt = false := by
      fin_cases hs <;> simp [shouldRetry, hset]
    simp [runAttempts, hr]
  · intro rest attempt
    have hr : shouldRetryError cfg "ENOTFOUND" attempt = false := by
      simp [shouldRetryError, retryableErrorCodes]
    simp [runAttempts, hr]
  · intro outcomes
    have := runAttempts_trace_length cfg req outcomes 0 (Nat.zero_le _)
    omega

/-- Witness for C1: with the default configuration, a 500 response at
attempt 0 is retried. -/
theorem retry_loop_policy_witness :
    runAttempts defaultRetryConfig ⟨"POST", "/v1/chat/completions", none⟩ 0
        [.resp 500 none, .resp 200 none]
      = ((runAttempts defaultRetryConfig ⟨"POST", "/v1/chat/completions", none⟩ 1
            [.resp 200 none]).1,
         ⟨"POST", "/v1/chat/completions", none⟩ ::
           (runAttempts defaultRetryConfig ⟨"POST", "/v1/chat/completions", none⟩ 1
             [.resp 200 none]).2) :=
  (retry_loop_policy defaultRetryConfig ⟨"POST", "/v1/chat/completions", none⟩ rfl).1
    500 (by decide) none [.resp 200 none] 0 (by decide)

/-- Claim C2 counterexample: a buffered request — on the JSON path and on
the multipart path alike — whose four transport attempts all time out
under the default configuration is answered with status 502, not 504. -/
theorem upstream_timeout_not_504 :
    handleJsonRequestStatus defaultRetryConfig true
        ⟨"POST", "/v1/chat/completions", none⟩ 0 "abc"
        (List.replicate 4 (.err "TIMEOUT")) = 502
  ∧ handleJsonRequestStatus defaultRetryConfig true
        ⟨"POST", "/v1/chat/completions", none⟩ 0 "abc"
        (List.replicate 4 (.err "TIMEOUT")) ≠ 504
  ∧ handleMultipartRequestStatus defaultRetryConfig true
        ⟨"POST", "/v1/audio/transcriptions", none⟩ 0 "abc"
        (List.replicate 4 (.err "TIMEOUT")) = 502
  ∧ handleMultipartRequestStatus defaultRetryConfig true
        ⟨"POST", "/v1/audio/transcriptions", none⟩ 0 "abc"
        (List.replicate 4 (.err "TIMEOUT")) ≠ 504 := by decide

/-- Claim C2 (amended): for every buffered proxy request, JSON or
multipart, whose upstream attempts all fail with a timeout until retries
are exhausted, the response sent to the client has HTTP status 502 (the
`network_error` branch of the respective buffered error handler), not
504. -/
theorem upstream_timeout_yields_502 (cfg : RetryConfig)
    (enableIdempotency : Bool) (opts : RequestOptions) (nowMs : Nat)
    (rand : String) (rest : List Outcome) :
    handleJsonRequestStatus cfg enableIdempotency opts nowMs rand
        (List.replicate (cfg.maxRetries + 1) (.err "TIMEOUT") ++ rest) = 502
  ∧ handleMultipartRequestStatus cfg enableIdempotency opts nowMs rand
        (List.replicate (cfg.maxRetries + 1) (.err "TIMEOUT") ++ rest) = 502 := by
  have h := runAttempts_all_timeout cfg
    (prepareRequestOptions enableIdempotency opts nowMs rand) rest
    cfg.maxRetries 0 (by omega)
  constructor
  · unfold handleJsonRequestStatus makeJsonRequest makeRequest
    rw [h]
  · unfold handleMultipartRequestStatus makeMultipartRequest makeRequest
    rw [h]

/-- Claim C3 counterexample: the queue-overflow response has status 503
and `retryAfter 30` in its JSON body, but none of its HTTP headers is a
`Retry-After` header. -/
theorem queue_overflow_header_counterexample :
    (overflowClientResponse "This job has been dropped by Bottleneck").status = 503
  ∧ (overflowClientResponse "This job has been dropped by Bottleneck").bodyRetryAfter
      = some 30
  ∧ ((overflowClientResponse "This job has been dropped by Bottleneck").headers.all
      (fun p => !(p.1 == "Retry-After") && !(p.1 == "retry-after"))) = true := by
  decide

/-- Claim C3 (amended): every proxy request rejected by the scheduler with
a dropped-job error is answered with HTTP status 503 whose JSON body
carries the field `retryAfter` with value 30; no `Retry-After` HTTP header
is set. -/
theorem queue_overflow_response (msg : String)
    (h : jsIncludes msg "This job has been dropped" = true) :
    overflowClientResponse msg
      = { status := 503, headers := [("content-type", "application/json")]
          bodyRetryAfter := some 30 } := by
  simp [overflowClientResponse, scheduleRequestError, mainHandlerCatchResponse, h]

/-- Witness for the amended C3 at the literal Bottleneck drop message. -/
theorem queue_overflow_response_witness :
    overflowClientResponse "This job has been dropped by Bottleneck"
      = { status := 503, headers := [("content-type", "application/json")]
          bodyRetryAfter := some 30 } :=
  queue_overflow_response "This job has been dropped by Bottleneck" (by decide)

/-- Claim C4 (code bug): the cleanup timer of `getUserLimiter` fires one
hour after limiter creation and checks only registry membership, so it
stops and removes a limiter that has a running job, queued work, and
activity one second earlier — a state in which the claimed destruction
condition (idle, with activity older than the TTL) is false. -/
theorem limiter_destroyed_while_busy :
    cleanupCallback [("user-key-1", ⟨1, 3, 3599000⟩)] "user-key-1" = []
  ∧ cleanupTimerFires 0 = 3600000
  ∧ idleDestroyAllowed ⟨1, 3, 3599000⟩ (cleanupTimerFires 0) idleCleanupDelayMs
      = false := by decide

/-- Claim C5: for a mutating method with no caller-supplied
`Idempotency-Key`, `makeRequest` attaches the generated key
`req_<milliseconds>_<random>` before the retry loop, and every attempt the
loop executes carries that identical key. -/
theorem idempotency_key_stable (cfg : RetryConfig) (opts : RequestOptions)
    (nowMs : Nat) (rand : String) (outcomes : List Outcome)
    (hm : mutatingMethods.contains opts.method = true)
    (hk : opts.idempotencyKey = none) :
    (prepareRequestOptions true opts nowMs rand).idempotencyKey
        = some ("req_" ++ toString nowMs ++ "_" ++ rand)
  ∧ ((makeRequest cfg true opts nowMs rand outcomes).2.all
      (fun r => r.idempotencyKey == some (generateIdempotencyKey nowMs rand)))
      = true := by
  have hmem : opts.method ∈ mutatingMethods := by simpa using hm
  have hkey : (prepareRequestOptions true opts nowMs rand).idempotencyKey
      = some (generateIdempotencyKey nowMs rand) := by
    simp [prepareRequestOptions, hmem, hk, isFalsyHeader]
  refine ⟨hkey, ?_⟩
  rw [List.all_eq_true]
  intro r hr
  have hreq := runAttempts_trace_req cfg
    (prepareRequestOptions true opts nowMs rand) outcomes 0 r hr
  simp [hreq, hkey]

/-- Witness for C5: a concrete POST with one 500 retry and a success; both
attempts carry the generated key. -/
theorem idempotency_key_stable_witness :
    (prepareRequestOptions true ⟨"POST", "/v1/embeddings", none⟩ 1700000000000 "k7m2p").idempotencyKey
        = some ("req_" ++ toString 1700000000000 ++ "_" ++ "k7m2p")
  ∧ ((makeRequest defaultRetryConfig true ⟨"POST", "/v1/embeddings", none⟩
        1700000000000 "k7m2p" [.resp 500 none, .resp 200 none]).2.all
      (fun r => r.idempotencyKey == some (generateIdempotencyKey 1700000000000 "k7m2p")))
      = true :=
  idempotency_key_stable defaultRetryConfig ⟨"POST", "/v1/embeddings", none⟩
    1700000000000 "k7m2p" [.resp 500 none, .resp 200 none] (by decide) rfl

/-- Claim C6: the delay before the (n+1)-th attempt is
`min(maxDelay, baseDelay * 2 ^ n + jitter)` with `0 ≤ jitter < 1000` ms,
unless the prior failed response carried a `Retry-After` header parseable
as an integer `N`, in which case it is `min(N * 1000, maxDelay)`. -/
theorem retry_delay_formula (cfg : RetryConfig) (n : Nat)
    (retryAfterHeader : Option String) (jitter : ℚ)
    (_hj : 0 ≤ jitter ∧ jitter < 1000) :
    (∀ N : Int, retryAfterHeader.bind parseIntJs = some N →
        calculateRetryDelay cfg n retryAfterHeader jitter
          = min cfg.maxDelay ((N : ℚ) * 1000))
  ∧ (retryAfterHeader.bind parseIntJs = none →
        calculateRetryDelay cfg n retryAfterHeader jitter
          = min cfg.maxDelay (cfg.baseDelay * 2 ^ n + jitter)) := by
  constructor
  · intro N hN
    unfold calculateRetryDelay
    rw [hN]
    exact min_comm _ _
  · intro hN
    unfold calculateRetryDelay
    rw [hN]
    exact min_comm _ _

/-- Witness for C6: a `Retry-After: 7` header at retry index 2 yields
`min(maxDelay, 7000)`. -/
theorem retry_delay_formula_witness :
    calculateRetryDelay defaultRetryConfig 2 (some "7") 500
      = min defaultRetryConfig.maxDelay ((7 : ℚ) * 1000) :=
  (retry_delay_formula defaultRetryConfig 2 (some "7") 500
    (by constructor <;> norm_num)).1 7 rfl

/-- Claim C7 counterexample: a pre-headers `TIMEOUT` failure is retryable
under the retry policy at attempt 0 of the default configuration, yet the
streaming path makes exactly one transport attempt and surfaces that
failure without retrying (the next outcome, a successful stream, is never
reached). -/
theorem streaming_pre_headers_not_retried :
    shouldRetryError defaultRetryConfig "TIMEOUT" 0 = true
  ∧ makeStreamingRequestTrace [.preHeadersError "TIMEOUT", .headersArrived 200]
      = (.rejected "TIMEOUT", 1) := by decide

/-- Claim C7 (amended): a streaming upstream request is issued exactly
once — a failure before response headers arrive is surfaced without any
retry, and once a stream has begun (headers arrived) no retry occurs
either; the result never depends on outcomes past the first. -/
theorem streaming_single_attempt (o : StreamOutcome) (rest : List StreamOutcome) :
    (makeStreamingRequestTrace (o :: rest)).2 = 1
  ∧ makeStreamingRequestTrace (o :: rest) = makeStreamingRequestTrace [o]
  ∧ (∀ c, o = .preHeadersError c →
      makeStreamingRequestTrace (o :: rest) = (.rejected c, 1))
  ∧ (∀ s, o = .headersArrived s →
      makeStreamingRequestTrace (o :: rest) = (.handle s, 1)) := by
  cases o <;> simp [makeStreamingRequestTrace]

/-- Witness for the amended C7: a concrete pre-headers connection reset is
surfaced after exactly one attempt. -/
theorem streaming_single_attempt_witness :
    makeStreamingRequestTrace [.preHeadersError "ECONNRESET", .headersArrived 200]
      = (.rejected "ECONNRESET", 1) :=
  (streaming_single_attempt (.preHeadersError "ECONNRESET")
    [.headersArrived 200]).2.2.1 "ECONNRESET" rfl

/-- Claim C8: when the allowlist is disabled every path is allowed;
otherwise `isEndpointAllowed` equals membership in the configured endpoint
set of the normalized path — the path with everything from the first `?`
stripped and `/v1` prepended when the remainder does not start with
`/v1/`. -/
theorem endpoint_allowed_spec (cfg : AllowlistConfig) (path : String) :
    (isAllowlistEnabled cfg = false → isEndpointAllowed cfg path = true)
  ∧ (isAllowlistEnabled cfg = true →
      isEndpointAllowed cfg path
        = cfg.endpoints.contains (specNormalizedPath path)) := by
  constructor
  · intro h
    simp [isEndpointAllowed, h]
  · intro h
    unfold isEndpointAllowed specNormalizedPath
    rw [h]
    by_cases hsw :
        (String.mk (path.data.takeWhile (fun c => c != '?'))).startsWith "/v1/" = true
    · simp [hsw]
    · simp [hsw]

/-- Witness for C8: under the default allowlist, a path without the `/v1/`
prefix and with a query string is normalized as the specification says. -/
theorem endpoint_allowed_spec_witness :
    isEndpointAllowed defaultAllowlistConfig "/chat/completions?stream=true"
      = defaultAllowlistConfig.endpoints.contains
          (specNormalizedPath "/chat/completions?stream=true") :=
  (endpoint_allowed_spec defaultAllowlistConfig "/chat/completions?stream=true").2 rfl

/-- Claim C9: with the allowlist enabled, a JSON body lacking a `model`
field is normalized to carry `model = default_model` with every other
field unchanged, and the original request body object is left unmutated
(the call returns it as it was, its `model` field still absent). -/
theorem model_defaulting (configALLOWLIST : Option AllowlistConfig)
    (body : RequestBody)
    (henabled : isAllowlistEnabled (configALLOWLIST.getD defaultAllowlistConfig) = true)
    (hmodel : body.model = none) :
    validateAndNormalizeRequest configALLOWLIST body
      = .ok ({ valid := true
               body := some
                 { model := some (getDefaultModel (configALLOWLIST.getD defaultAllowlistConfig))
                   rest := body.rest }
               error := none, detailsAllowedModels := none }, body) := by
  unfold validateAndNormalizeRequest
  simp [henabled, hmodel, isTruthyStr]

/-- Witness for C9: a concrete body with only a `messages` field gets the
default model, and the original body is returned unchanged. -/
theorem model_defaulting_witness :
    validateAndNormalizeRequest (some defaultAllowlistConfig)
        ⟨none, [("messages", "hi")]⟩
      = .ok ({ valid := true
               body := some
                 { model := some (getDefaultModel ((some defaultAllowlistConfig).getD defaultAllowlistConfig))
                   rest := [("messages", "hi")] }
               error := none, detailsAllowedModels := none },
             ⟨none, [("messages", "hi")]⟩) :=
  model_defaulting (some defaultAllowlistConfig) ⟨none, [("messages", "hi")]⟩ rfl rfl

/-- Claim C10: when config.json could not be loaded (the module falls back
to the built-in default allowlist, which is enabled), validating a body
whose model is non-empty and not in the default model set throws a
`TypeError` — the rejection branch reads `config.ALLOWLIST.models` on the
undefined `config.ALLOWLIST` — so no `valid:false` result (the caller's
403 path) is ever produced in that configuration. -/
theorem missing_config_model_check_throws (body : RequestBody) (m : String)
    (hm : body.model = some m) (hne : m.isEmpty = false)
    (hnotin : defaultAllowlistConfig.models.contains m = false) :
    validateAndNormalizeRequest none body
      = .error (.typeError "Cannot read properties of undefined (reading \x27models\x27)")
  ∧ ∀ r, validateAndNormalizeRequest none body ≠ .ok r := by
  have herr : validateAndNormalizeRequest none body
      = .error (.typeError "Cannot read properties of undefined (reading \x27models\x27)") := by
    have hen : isAllowlistEnabled defaultAllowlistConfig = true := by decide
    have hnm : m ∉ defaultAllowlistConfig.models := by simpa using hnotin
    have hall : isModelAllowed defaultAllowlistConfig (some m) = false := by
      simp [isModelAllowed, hen, isTruthyStr, hne, hnm]
    unfold validateAndNormalizeRequest
    simp [hen, hm, isTruthyStr, hne, hall]
  exact ⟨herr, by simp [herr]⟩

/-- Witness for C10: the disallowed model `gpt-4` with no loaded config
throws instead of returning a validation result. -/
theorem missing_config_model_check_throws_witness :
    validateAndNormalizeRequest none ⟨some "gpt-4", []⟩
      = .error (.typeError "Cannot read properties of undefined (reading \x27models\x27)") :=
  (missing_config_model_check_throws ⟨some "gpt-4", []⟩ "gpt-4" rfl rfl (by decide)).1
